import Mathlib

/-!
Verification of the data pipeline in `src/app.py` (atlascodexa/dashboard-tcc).

The file gives a shallow embedding of `fetch_ibge_data` and of the layout
decision at the bottom of `app.py`, and proves the specified properties about
it. Conventions of the embedding:

* Python numeric values (`float`) are modelled as exact rationals `ℚ`; every
  numeric computation of the pipeline (mean, `* 3`) is exact at the inputs the
  claims exercise.
* A raised Python exception is modelled by `Except.error` carrying the
  exception kind; `requests.get(...).json()` outcomes are modelled by
  `Option Payload`, with `none` standing for an exception raised inside the
  `try` block (timeout, DNS failure, or a body that fails JSON decoding) and
  `some` for any decoded body — `requests` raises on no status code, so a
  non-2xx response with a decodable JSON error body is a `some` payload whose
  shape check only happens outside the `try` (see `Payload`).
* `pandas` operations are modelled at list level: a `DataFrame` built from a
  list of uniform records is the list itself; `pd.DataFrame([])` has no
  columns, so selecting a column of it raises `KeyError`, which the embedding
  reproduces; `groupby(...).mean()` is one output row per distinct key
  (row order of the groupby result is immaterial to every property proved
  here, see `c8_join_order_invariant`); `pd.merge(..., how='inner')` is the
  nested-loop inner join.
-/

namespace App

/-- Kinds of Python exception the pipeline can raise. -/
inductive PyErr where
  | valueError
  | keyError
  | indexError
  | typeError
deriving DecidableEq

/-- View of an `Except` value as a sum, to derive decidable equality. -/
def exceptToSum {ε α : Type} : Except ε α → ε ⊕ α
  | .error e => .inl e
  | .ok a => .inr a

instance {ε α : Type} [DecidableEq ε] [DecidableEq α] :
    DecidableEq (Except ε α) := fun a b =>
  decidable_of_iff (exceptToSum a = exceptToSum b)
    (by cases a <;> cases b <;> simp [exceptToSum])

/-- `serie['localidade']` of one entry of `resp[0]['resultados']`. -/
structure Localidade where
  id : String
  nome : String
deriving DecidableEq

/-- One entry of `resp[0]['resultados']`: its `localidade`, and `series`, a
list of period→value dicts, each dict modelled as its `.items()` list of
(periodo, valor) pairs in iteration order. The code reads `serie['series'][0]`,
which raises `IndexError` when the list is empty. -/
structure Serie where
  localidade : Localidade
  series : List (List (String × String))
deriving DecidableEq

/-- A JSON body that `.json()` decoded inside the `try`, classified by the
only thing lines 33 and 57 observe about it: either it has the expected shape
— a non-empty array whose first element is an object carrying a `resultados`
array of well-formed series — or it does not, and the accesses
`resp[0]['resultados']` (and the field accesses on its elements) raise the
recorded uncaught exception. The second case is how a non-2xx response
arrives here: `requests.get` raises on no status code and `.json()` decodes
the API's JSON error body, so e.g. `{"message": ...}` passes the `try` and
`resp[0]` then raises `KeyError`; `[]` raises `IndexError`; a decoded scalar
raises `TypeError`. -/
inductive Payload where
  | resultados (series : List Serie)
  | illFormed (e : PyErr)

/-- The access `resp[0]['resultados']` of lines 33 and 57. -/
def getResultados : Payload → Except PyErr (List Serie)
  | .resultados s => .ok s
  | .illFormed e => .error e

/-- A row of `ipca_records` (app.py line 39). -/
structure IpcaRecord where
  mes : String
  rm : String
  macroId : String
  ipca : ℚ
deriving DecidableEq

/-- A row of `df_ipca` after lines 44–46 added `Ano`, `Trimestre`,
`Trimestre_Cod`. -/
structure TrimRecord where
  mes : String
  rm : String
  macroId : String
  ipca : ℚ
  ano : String
  trimestre : Nat
  trimCod : String
deriving DecidableEq

/-- A row of `df_ipca_trim` after lines 49–51: the groupby mean and the
`IPCA_Acum_Trim = IPCA * 3` column. -/
structure AggRecord where
  macroId : String
  trimCod : String
  ipca : ℚ
  ipcaAcumTrim : ℚ
deriving DecidableEq

/-- A row of `pnad_records` (app.py line 61). -/
structure PnadRecord where
  trimCod : String
  macroId : String
  desemprego : ℚ
deriving DecidableEq

/-- A row of `df_final` right after the merge on line 66 (left-frame columns
first, key columns once). -/
structure JoinedRecord where
  trimCod : String
  macroId : String
  desemprego : ℚ
  ipca : ℚ
  ipcaAcumTrim : ℚ
deriving DecidableEq

/-- A row of the returned `df_final` after lines 67 and 70 added `Regiao`
(`none` models the `NaN` that `Series.map` yields off the table) and `Data`
(the quarter-start timestamp, modelled as (year, first month of quarter)). -/
structure FinalRecord where
  trimCod : String
  macroId : String
  desemprego : ℚ
  ipca : ℚ
  ipcaAcumTrim : ℚ
  regiao : Option String
  dataTs : Nat × Nat
deriving DecidableEq

/-- Codepoint-level `s[:n]` (Python slicing; the core `String.take` is not
kernel-reducible, so the embedding slices the underlying character list). -/
def strTake (s : String) (n : Nat) : String :=
  String.mk (s.data.take n)

/-- Codepoint-level `s[n:]`. -/
def strDrop (s : String) (n : Nat) : String :=
  String.mk (s.data.drop n)

/-- Value of a digit string read in base 10 (helper for `pyFloat`). -/
def digitsToNat (cs : List Char) : Nat :=
  cs.foldl (fun n c => 10 * n + (c.toNat - 48)) 0

/-- `int(cs)` on a non-empty all-digit character list, `none` otherwise
(models the parses `pandas` does on year, month and quarter fields). -/
def natOfDigits? (cs : List Char) : Option Nat :=
  if cs ≠ [] ∧ cs.all Char.isDigit = true then some (digitsToNat cs) else none

/-- Python `str.strip` whitespace trimming, at character-list level. -/
def trimChars (cs : List Char) : List Char :=
  ((cs.dropWhile Char.isWhitespace).reverse.dropWhile Char.isWhitespace).reverse

/-- Models Python `float(valor)` on the decimal strings this API serves:
optional surrounding whitespace, an optional sign, an integer part and an
optional fractional part (at least one digit overall). `none` models a raised
`ValueError` — in particular on the IBGE sentinels `"..."`, `"-"` and `"X"`.
(Exponent, infinity and NaN spellings accepted by `float` do not occur in this
API's payloads and are not modelled.) -/
def pyFloat (s : String) : Option ℚ :=
  let cs := trimChars s.data
  let sign : ℚ := match cs with
    | '-' :: _ => -1
    | _ => 1
  let rest := match cs with
    | '-' :: r => r
    | '+' :: r => r
    | r => r
  let ip := rest.takeWhile Char.isDigit
  let rest2 := rest.dropWhile Char.isDigit
  match rest2 with
  | [] => if ip.isEmpty then none else some (sign * (digitsToNat ip : ℚ))
  | '.' :: fp =>
    if fp.all Char.isDigit && !(ip.isEmpty && fp.isEmpty) then
      some (sign * ((digitsToNat ip : ℚ) + (digitsToNat fp : ℚ) / (10 : ℚ) ^ fp.length))
    else none
  | _ => none

/-- `macro_code = str(rm_id)[0]` (app.py line 36): the first character of the
finer-region identifier; Python raises `IndexError` on an empty string. -/
def macroCode (rmId : String) : Except PyErr String :=
  match rmId.data with
  | [] => .error .indexError
  | c :: _ => .ok (String.singleton c)

/-- The loop body of lines 37–39 over `serie['series'][0].items()`: values
equal to the sentinel `'...'` are skipped; every other value goes through
`float(valor)`, which raises `ValueError` (uncaught — the whole parse dies)
when coercion fails. -/
def parseObsIpca (rmName mcode : String) :
    List (String × String) → Except PyErr (List IpcaRecord)
  | [] => .ok []
  | (periodo, valor) :: rest =>
    if valor = "..." then parseObsIpca rmName mcode rest
    else
      match pyFloat valor with
      | some v =>
        match parseObsIpca rmName mcode rest with
        | .ok l => .ok (⟨periodo, rmName, mcode, v⟩ :: l)
        | .error e => .error e
      | none => .error .valueError

/-- Lines 32–39: build `ipca_records` from `resp_ipca[0]['resultados']`. -/
def parseIpca : List Serie → Except PyErr (List IpcaRecord)
  | [] => .ok []
  | s :: rest =>
    match macroCode s.localidade.id with
    | .error e => .error e
    | .ok mcode =>
      match s.series with
      | [] => .error .indexError
      | d :: _ =>
        match parseObsIpca s.localidade.nome mcode d with
        | .error e => .error e
        | .ok recs =>
          match parseIpca rest with
          | .error e => .error e
          | .ok more => .ok (recs ++ more)

/-- Models `pd.to_datetime(mes, format='%Y%m').dt.quarter` (line 45): the
format requires a digit year of up to four characters followed by a one- or
two-digit month in 01–12; any other string raises, modelled as `none`. The
quarter of month `m` is `(m - 1) / 3 + 1`. -/
def mesQuarter (mes : String) : Option Nat :=
  if 5 ≤ mes.data.length ∧ mes.data.length ≤ 6 then
    match natOfDigits? (mes.data.take 4), natOfDigits? (mes.data.drop 4) with
    | some _, some m => if 1 ≤ m ∧ m ≤ 12 then some ((m - 1) / 3 + 1) else none
    | _, _ => none
  else none

/-- Line 46: `Trimestre_Cod = Ano + "0" + str(Trimestre)` where
`Ano = Mes[:4]` (line 44). -/
def trimestreCod (mes : String) : Option String :=
  (mesQuarter mes).map (fun q => strTake mes 4 ++ "0" ++ toString q)

/-- The per-row effect of lines 44–46 on `df_ipca`: add `Ano = Mes[:4]`,
`Trimestre` and `Trimestre_Cod`; when some `Mes` value does not match
`'%Y%m'`, `pd.to_datetime` on line 45 raises for the whole frame. -/
def addTrimestreRows : List IpcaRecord → Except PyErr (List TrimRecord)
  | [] => .ok []
  | r :: rest =>
    match mesQuarter r.mes with
    | some q =>
      match addTrimestreRows rest with
      | .ok l => .ok (⟨r.mes, r.rm, r.macroId, r.ipca, strTake r.mes 4, q,
          strTake r.mes 4 ++ "0" ++ toString q⟩ :: l)
      | .error e => .error e
    | none => .error .valueError

/-- Lines 44–46 as one fallible step over `df_ipca`, built row by row from
`addTrimestreRows`. When `ipca_records` is empty, `pd.DataFrame([])` has no
columns at all, so `df_ipca['Mes']` on line 44 raises `KeyError`. -/
def addTrimestre (records : List IpcaRecord) : Except PyErr (List TrimRecord) :=
  if records.isEmpty then .error .keyError else addTrimestreRows records

/-- The `IPCA` values of the rows of one (Macro_ID, Trimestre_Cod) group. -/
def groupVals (rs : List TrimRecord) (k : String × String) : List ℚ :=
  (rs.filter (fun r => r.macroId == k.1 && r.trimCod == k.2)).map (fun r => r.ipca)

/-- Lines 49–51: `df_ipca.groupby(['Macro_ID', 'Trimestre_Cod'])['IPCA'].mean()`
followed by `IPCA_Acum_Trim = IPCA * 3`: one output row per distinct key pair
of the input, carrying the arithmetic mean of the group and three times it.
(pandas emits the groups sorted by key; the embedding emits them in first-key
order — no property proved here depends on row order.) -/
def ipcaTrimAgg (rs : List TrimRecord) : List AggRecord :=
  ((rs.map (fun r => (r.macroId, r.trimCod))).dedup).map (fun k =>
    let vals := groupVals rs k
    { macroId := k.1, trimCod := k.2,
      ipca := vals.sum / (vals.length : ℚ),
      ipcaAcumTrim := vals.sum / (vals.length : ℚ) * 3 })

/-- The loop body of lines 59–61, the PNAD twin of `parseObsIpca`: the
macro-region id is used directly as the key and the periodo is already a
quarter code. -/
def parseObsPnad (macroId : String) :
    List (String × String) → Except PyErr (List PnadRecord)
  | [] => .ok []
  | (periodo, valor) :: rest =>
    if valor = "..." then parseObsPnad macroId rest
    else
      match pyFloat valor with
      | some v =>
        match parseObsPnad macroId rest with
        | .ok l => .ok (⟨periodo, macroId, v⟩ :: l)
        | .error e => .error e
      | none => .error .valueError

/-- Lines 57–61: build `pnad_records` from `resp_pnad[0]['resultados']`. -/
def parsePnad : List Serie → Except PyErr (List PnadRecord)
  | [] => .ok []
  | s :: rest =>
    match s.series with
    | [] => .error .indexError
    | d :: _ =>
      match parseObsPnad s.localidade.id d with
      | .error e => .error e
      | .ok recs =>
        match parsePnad rest with
        | .error e => .error e
        | .ok more => .ok (recs ++ more)

/-- Line 66: `pd.merge(df_pnad, df_ipca_trim, on=['Macro_ID', 'Trimestre_Cod'],
how='inner')` — the nested-loop inner join, left-frame rows outermost. -/
def mergeFinal (pnad : List PnadRecord) (ipcaTrim : List AggRecord) :
    List JoinedRecord :=
  pnad.flatMap (fun p =>
    (ipcaTrim.filter (fun a => a.macroId == p.macroId && a.trimCod == p.trimCod)).map
      (fun a => ⟨p.trimCod, p.macroId, p.desemprego, a.ipca, a.ipcaAcumTrim⟩))

/-- The dict of line 55; `Series.map` over it (line 67) yields `NaN` — here
`none` — for a key off the table. -/
def macro_map : String → Option String
  | "1" => some "Norte"
  | "2" => some "Nordeste"
  | "3" => some "Sudeste"
  | "4" => some "Sul"
  | "5" => some "Centro-Oeste"
  | _ => none

/-- Line 70: `pd.PeriodIndex(cod[:4] + "Q" + cod[-1], freq='Q').to_timestamp()`
gives the first day of the quarter, modelled as (year, first month of the
quarter); `none` models the exceptions pandas raises on a malformed code (and
the `IndexError` of `cod[-1]` on an empty string). -/
def quarterStart (trimCod : String) : Option (Nat × Nat) :=
  match trimCod.data.reverse with
  | [] => none
  | last :: _ =>
    match natOfDigits? (trimCod.data.take 4), natOfDigits? [last] with
    | some y, some q => if 1 ≤ q ∧ q ≤ 4 then some (y, 3 * (q - 1) + 1) else none
    | _, _ => none

/-- Lines 67 and 70: add the `Regiao` and `Data` columns to the merged frame,
row by row; a `Trimestre_Cod` that `pd.PeriodIndex` cannot parse raises for
the whole frame. -/
def finalizeCols : List JoinedRecord → Except PyErr (List FinalRecord)
  | [] => .ok []
  | j :: rest =>
    match quarterStart j.trimCod with
    | some d =>
      match finalizeCols rest with
      | .ok l => .ok (⟨j.trimCod, j.macroId, j.desemprego, j.ipca, j.ipcaAcumTrim,
          macro_map j.macroId, d⟩ :: l)
      | .error e => .error e
    | none => .error .valueError

/-- Lines 18–72, `fetch_ibge_data`, as a function of the two fetch outcomes.
`none` for either response models an exception raised inside the `try` block
of lines 25–27 — a timeout, a DNS failure, or a body `.json()` cannot decode:
the `except` on line 28 then returns the empty frame, i.e. `.ok []`. Nothing
else raises inside the `try`: a non-2xx status or a decodable-but-malformed
body arrives as a `some` payload, whose shape is probed only by
`resp[0]['resultados']` (`getResultados`, lines 33 and 57), outside any
handler. With both payloads well-shaped the pipeline runs parse → quarter
columns → groupby → PNAD parse → merge → Regiao/Data; every exception raised
after the `try` escapes `fetch_ibge_data`, modelled as `.error`. The
`pnad_records`-empty check models the `KeyError` that `pd.merge` raises when
the no-column empty `df_pnad` lacks the `on=` keys. -/
def fetch_ibge_data (respIpca respPnad : Option Payload) :
    Except PyErr (List FinalRecord) :=
  match respIpca, respPnad with
  | some ipcaResp, some pnadResp =>
    match getResultados ipcaResp with
    | .error e => .error e
    | .ok ipcaSeries =>
      match parseIpca ipcaSeries with
      | .error e => .error e
      | .ok ipcaRecords =>
        match addTrimestre ipcaRecords with
        | .error e => .error e
        | .ok dfIpca =>
          match getResultados pnadResp with
          | .error e => .error e
          | .ok pnadSeries =>
            match parsePnad pnadSeries with
            | .error e => .error e
            | .ok pnadRecords =>
              if pnadRecords.isEmpty then .error .keyError
              else finalizeCols (mergeFinal pnadRecords (ipcaTrimAgg dfIpca))
  | _, _ => .ok []

/-- The two ways the page can come out: the error `Div` of line 83, or the
chart page built from the rows of the non-empty frame (lines 85–147; the
figures themselves are not needed by any property below). -/
inductive RenderOutcome where
  | errorMessage
  | charts (rows : List FinalRecord)
deriving DecidableEq

/-- Lines 74 and 82–83: the module computes `df = fetch_ibge_data()` and picks
the layout on `df.empty`. When `fetch_ibge_data` raised, the module itself
dies and no layout at all is built — modelled as `none`. -/
def appLayout (res : Except PyErr (List FinalRecord)) : Option RenderOutcome :=
  match res with
  | .error _ => none
  | .ok [] => some .errorMessage
  | .ok rows => some (.charts rows)

/-- The spec's aggregation scenario: three monthly records of one
(region, quarter) group with values 1.0, 0.5 and 1.5. -/
def c5Rows : List TrimRecord :=
  [⟨"202001", "RM", "3", 1, "2020", 1, "202001"⟩,
   ⟨"202002", "RM", "3", 0.5, "2020", 1, "202001"⟩,
   ⟨"202003", "RM", "3", 1.5, "2020", 1, "202001"⟩]

/-- Membership in the inner join: a joined row comes from a PNAD row and an
aggregated IPCA row agreeing with it on both key columns. -/
theorem mem_mergeFinal {pnad : List PnadRecord} {ipcaTrim : List AggRecord}
    {j : JoinedRecord} :
    j ∈ mergeFinal pnad ipcaTrim ↔
      ∃ p ∈ pnad, ∃ a ∈ ipcaTrim, a.macroId = p.macroId ∧ a.trimCod = p.trimCod ∧
        j = ⟨p.trimCod, p.macroId, p.desemprego, a.ipca, a.ipcaAcumTrim⟩ := by
  constructor
  · intro hj
    obtain ⟨p, hp, hj2⟩ := List.mem_flatMap.1 hj
    obtain ⟨a, ha, rfl⟩ := List.mem_map.1 hj2
    obtain ⟨ha1, ha2⟩ := List.mem_filter.1 ha
    rw [Bool.and_eq_true, beq_iff_eq, beq_iff_eq] at ha2
    exact ⟨p, hp, a, ha1, ha2.1, ha2.2, rfl⟩
  · rintro ⟨p, hp, a, ha, h1, h2, rfl⟩
    refine List.mem_flatMap.2 ⟨p, hp, List.mem_map.2 ⟨a, List.mem_filter.2 ⟨ha, ?_⟩, rfl⟩⟩
    rw [Bool.and_eq_true, beq_iff_eq, beq_iff_eq]
    exact ⟨h1, h2⟩

/-- Claim C1 names a code bug. The failure kinds that actually raise inside
the `try` — a timeout, a DNS failure, a body `.json()` cannot decode — do
yield the explicitly empty dataset whichever request they hit (first two
conjuncts, never a partial result). But `requests` raises on no status code:
a non-2xx response whose JSON error body decodes (e.g. `{"message": ...}`)
passes the `try`, and `resp_ipca[0]` on line 33 then raises an uncaught
`KeyError`, crashing the module with no layout at all instead of returning
the empty result set the claim (and spec sections 4.1 and 7) requires. -/
theorem c1_transport_failure_handling :
    (∀ resp : Option Payload, fetch_ibge_data none resp = .ok []) ∧
    (∀ resp : Option Payload, fetch_ibge_data resp none = .ok []) ∧
    fetch_ibge_data (some (.illFormed .keyError))
        (some (.resultados [⟨⟨"3", "Sudeste"⟩, [[("202001", "7.5")]]⟩]))
      = .error .keyError ∧
    appLayout (fetch_ibge_data (some (.illFormed .keyError))
        (some (.resultados [⟨⟨"3", "Sudeste"⟩, [[("202001", "7.5")]]⟩]))) = none := by
  refine ⟨fun resp => by cases resp <;> rfl, fun resp => by cases resp <;> rfl,
    by decide, by decide⟩

/-- Counterexample to claim C2 as stated, in both parsers: an observation
whose value is the recognized sentinel "-" (or "X") is not skipped silently —
the code filters only `'...'`, so `float("-")` raises `ValueError`, no record
is produced, and the remaining observations are never parsed; the PNAD loop
of lines 59–61 behaves the same. -/
theorem c2_sentinel_counterexample :
    parseIpca [⟨⟨"3550308", "RM de Sao Paulo"⟩,
        [[("202001", "-"), ("202002", "1.0")]]⟩] = .error .valueError ∧
    parseObsIpca "RM de Sao Paulo" "3" [("202001", "X")] = .error .valueError ∧
    parsePnad [⟨⟨"3", "Sudeste"⟩, [[("202001", "-"), ("202002", "1.0")]]⟩]
      = .error .valueError ∧
    parseObsPnad "3" [("202001", "X")] = .error .valueError := by
  exact ⟨by decide, by decide, by decide, by decide⟩

/-- In the IPCA loop of lines 37–39, when every value is the sentinel `'...'`
or numerically coercible, exactly the non-sentinel observations become typed
records, in input order. -/
theorem parseObsIpca_skips_dots (rmName mcode : String)
    (obs : List (String × String))
    (h : ∀ pv ∈ obs, pv.2 = "..." ∨ (pyFloat pv.2).isSome = true) :
    parseObsIpca rmName mcode obs =
      .ok ((obs.filter (fun pv => pv.2 ≠ "...")).map
        (fun pv => ⟨pv.1, rmName, mcode, (pyFloat pv.2).getD 0⟩)) := by
  induction obs with
  | nil => rfl
  | cons pv rest ih =>
    obtain ⟨periodo, valor⟩ := pv
    have hrest := ih (fun x hx => h x (List.mem_cons_of_mem _ hx))
    by_cases hv : valor = "..."
    · subst hv
      simpa [parseObsIpca] using hrest
    · rcases h (periodo, valor) (List.mem_cons_self _ _) with h1 | h1
      · exact absurd h1 hv
      · obtain ⟨v, hv2⟩ := Option.isSome_iff_exists.1 h1
        simp [parseObsIpca, hv, hv2, hrest]

/-- The PNAD twin of `parseObsIpca_skips_dots` for the loop of lines 59–61. -/
theorem parseObsPnad_skips_dots (macroId : String) (obs : List (String × String))
    (h : ∀ pv ∈ obs, pv.2 = "..." ∨ (pyFloat pv.2).isSome = true) :
    parseObsPnad macroId obs =
      .ok ((obs.filter (fun pv => pv.2 ≠ "...")).map
        (fun pv => ⟨pv.1, macroId, (pyFloat pv.2).getD 0⟩)) := by
  induction obs with
  | nil => rfl
  | cons pv rest ih =>
    obtain ⟨periodo, valor⟩ := pv
    have hrest := ih (fun x hx => h x (List.mem_cons_of_mem _ hx))
    by_cases hv : valor = "..."
    · subst hv
      simpa [parseObsPnad] using hrest
    · rcases h (periodo, valor) (List.mem_cons_self _ _) with h1 | h1
      · exact absurd h1 hv
      · obtain ⟨v, hv2⟩ := Option.isSome_iff_exists.1 h1
        simp [parseObsPnad, hv, hv2, hrest]

/-- In the IPCA loop, any observation whose value is neither `'...'` nor
coercible makes `float` raise `ValueError`: the loop aborts with no records. -/
theorem parseObsIpca_fails (rmName mcode : String) (obs : List (String × String))
    (h : ∃ pv ∈ obs, pv.2 ≠ "..." ∧ pyFloat pv.2 = none) :
    parseObsIpca rmName mcode obs = .error .valueError := by
  induction obs with
  | nil => simp at h
  | cons pv rest ih =>
    obtain ⟨periodo, valor⟩ := pv
    obtain ⟨x, hx, hne, hnone⟩ := h
    rcases List.mem_cons.1 hx with rfl | hxr
    · simp [parseObsIpca, hne, hnone]
    · by_cases hv : valor = "..."
      · subst hv
        simpa [parseObsIpca] using ih ⟨x, hxr, hne, hnone⟩
      · match hpf : pyFloat valor with
        | none => simp [parseObsIpca, hv, hpf]
        | some v => simp [parseObsIpca, hv, hpf, ih ⟨x, hxr, hne, hnone⟩]

/-- The PNAD twin of `parseObsIpca_fails`. -/
theorem parseObsPnad_fails (macroId : String) (obs : List (String × String))
    (h : ∃ pv ∈ obs, pv.2 ≠ "..." ∧ pyFloat pv.2 = none) :
    parseObsPnad macroId obs = .error .valueError := by
  induction obs with
  | nil => simp at h
  | cons pv rest ih =>
    obtain ⟨periodo, valor⟩ := pv
    obtain ⟨x, hx, hne, hnone⟩ := h
    rcases List.mem_cons.1 hx with rfl | hxr
    · simp [parseObsPnad, hne, hnone]
    · by_cases hv : valor = "..."
      · subst hv
        simpa [parseObsPnad] using ih ⟨x, hxr, hne, hnone⟩
      · match hpf : pyFloat valor with
        | none => simp [parseObsPnad, hv, hpf]
        | some v => simp [parseObsPnad, hv, hpf, ih ⟨x, hxr, hne, hnone⟩]

/-- Claim C2 (amended): in both responses' parse loops only the sentinel
`'...'` is skipped silently. When every value of a loop is `'...'` or
numerically coercible, parsing succeeds and each remaining observation yields
exactly one typed record, in input order (first two conjuncts); when any
observation's value is neither `'...'` nor coercible — the sentinels "-" and
"X" included — the loop raises an uncaught `ValueError` and produces no
records at all (last two conjuncts; see also `c2_sentinel_counterexample`). -/
theorem c2_amended_sentinel_handling :
    (∀ (rmName mcode : String) (obs : List (String × String)),
      (∀ pv ∈ obs, pv.2 = "..." ∨ (pyFloat pv.2).isSome = true) →
      parseObsIpca rmName mcode obs =
        .ok ((obs.filter (fun pv => pv.2 ≠ "...")).map
          (fun pv => ⟨pv.1, rmName, mcode, (pyFloat pv.2).getD 0⟩))) ∧
    (∀ (macroId : String) (obs : List (String × String)),
      (∀ pv ∈ obs, pv.2 = "..." ∨ (pyFloat pv.2).isSome = true) →
      parseObsPnad macroId obs =
        .ok ((obs.filter (fun pv => pv.2 ≠ "...")).map
          (fun pv => ⟨pv.1, macroId, (pyFloat pv.2).getD 0⟩))) ∧
    (∀ (rmName mcode : String) (obs : List (String × String)),
      (∃ pv ∈ obs, pv.2 ≠ "..." ∧ pyFloat pv.2 = none) →
      parseObsIpca rmName mcode obs = .error .valueError) ∧
    (∀ (macroId : String) (obs : List (String × String)),
      (∃ pv ∈ obs, pv.2 ≠ "..." ∧ pyFloat pv.2 = none) →
      parseObsPnad macroId obs = .error .valueError) :=
  ⟨parseObsIpca_skips_dots, parseObsPnad_skips_dots,
   parseObsIpca_fails, parseObsPnad_fails⟩

/-- Claim C3 names a code bug: with well-formed responses whose IPCA values
are all the sentinel `'...'`, parsing yields zero usable records, and instead
of propagating an empty result `fetch_ibge_data` raises `KeyError`
(`df_ipca['Mes']` on the column-less empty frame of line 41), so the module
dies and not even the textual error message is rendered. -/
theorem c3_zero_records_raises_keyerror :
    fetch_ibge_data
        (some (.resultados [⟨⟨"3550308", "RM"⟩, [[("202001", "..."), ("202002", "...")]]⟩]))
        (some (.resultados [⟨⟨"3", "Sudeste"⟩, [[("202001", "7.5")]]⟩]))
      = .error .keyError ∧
    appLayout (fetch_ibge_data
        (some (.resultados [⟨⟨"3550308", "RM"⟩, [[("202001", "..."), ("202002", "...")]]⟩]))
        (some (.resultados [⟨⟨"3", "Sudeste"⟩, [[("202001", "7.5")]]⟩]))) = none := by
  exact ⟨by decide, by decide⟩

/-- Claim C4: for any month code whose year field is numeric and whose month
`m` lies in 01–12, the derived quarter is `(m - 1) / 3 + 1` — so months 1–3
land in Q1, 4–6 in Q2, 7–9 in Q3 and 10–12 in Q4, independently of the year —
and the quarter key is the 4-digit year concatenated (via the `"0"` pad of
line 46) with the quarter number, a sortable fixed-width string. -/
theorem c4_quarter_derivation (mes : String) (y m : Nat)
    (hlen5 : 5 ≤ mes.data.length) (hlen6 : mes.data.length ≤ 6)
    (hy : natOfDigits? (mes.data.take 4) = some y)
    (hm : natOfDigits? (mes.data.drop 4) = some m)
    (hm1 : 1 ≤ m) (hm12 : m ≤ 12) :
    mesQuarter mes = some ((m - 1) / 3 + 1) ∧
    trimestreCod mes = some (strTake mes 4 ++ "0" ++ toString ((m - 1) / 3 + 1)) ∧
    (((1 ≤ m ∧ m ≤ 3) → (m - 1) / 3 + 1 = 1) ∧
     ((4 ≤ m ∧ m ≤ 6) → (m - 1) / 3 + 1 = 2) ∧
     ((7 ≤ m ∧ m ≤ 9) → (m - 1) / 3 + 1 = 3) ∧
     ((10 ≤ m ∧ m ≤ 12) → (m - 1) / 3 + 1 = 4)) := by
  have hq : mesQuarter mes = some ((m - 1) / 3 + 1) := by
    unfold mesQuarter
    rw [if_pos ⟨hlen5, hlen6⟩, hy, hm]
    dsimp only
    rw [if_pos ⟨hm1, hm12⟩]
  refine ⟨hq, ?_, fun h => by omega, fun h => by omega, fun h => by omega,
    fun h => by omega⟩
  unfold trimestreCod
  rw [hq]
  rfl

/-- Witness for C4 at the month code 202005 (May 2020 → Q2, key 202002). -/
theorem c4_quarter_derivation_witness :
    mesQuarter "202005" = some 2 ∧ trimestreCod "202005" = some "202002" := by
  have h := c4_quarter_derivation "202005" 2020 5 (by decide) (by decide)
    (by decide) (by decide) (by decide) (by decide)
  exact ⟨h.1, h.2.1.trans (by decide)⟩

/-- Claim C5: every aggregated row's `IPCA` is the arithmetic mean — sum over
count — of its (region, quarter) group's monthly values, and its
`IPCA_Acum_Trim` is that mean multiplied by 3. -/
theorem c5_group_mean_times_three (rs : List TrimRecord) (a : AggRecord)
    (ha : a ∈ ipcaTrimAgg rs) :
    a.ipca = (groupVals rs (a.macroId, a.trimCod)).sum
        / ((groupVals rs (a.macroId, a.trimCod)).length : ℚ) ∧
    a.ipcaAcumTrim = a.ipca * 3 := by
  obtain ⟨k, hk, rfl⟩ := List.mem_map.1 ha
  exact ⟨rfl, rfl⟩

/-- Witness for C5, the spec's scenario: monthly values [1.0, 0.5, 1.5] in one
(region, quarter) group aggregate to mean 1.0 and scaled value 3.0. -/
theorem c5_group_mean_times_three_witness :
    (⟨"3", "202001", 1, 3⟩ : AggRecord) ∈ ipcaTrimAgg c5Rows ∧
    ((1 : ℚ) = (groupVals c5Rows ("3", "202001")).sum
        / ((groupVals c5Rows ("3", "202001")).length : ℚ) ∧
     (3 : ℚ) = 1 * 3) := by
  have hagg : ipcaTrimAgg c5Rows = [⟨"3", "202001", 1, 3⟩] := by
    simp [ipcaTrimAgg, groupVals, List.dedup, List.pwFilter, c5Rows]
    norm_num
  have hmem : (⟨"3", "202001", 1, 3⟩ : AggRecord) ∈ ipcaTrimAgg c5Rows := by
    rw [hagg]; exact List.mem_singleton.2 rfl
  exact ⟨hmem, c5_group_mean_times_three c5Rows _ hmem⟩

/-- Claim C6: macro-region code extraction yields exactly the first character
of the finer-region identifier, and the fixed table maps each of the five
codes to its region name; in particular "3550308" yields code "3", named
"Sudeste". -/
theorem c6_region_code_extraction (rmId : String) (h : rmId.data.length = 7) :
    (∃ c cs, rmId.data = c :: cs ∧ macroCode rmId = .ok (String.singleton c)) ∧
    macroCode "3550308" = .ok "3" ∧
    macro_map "1" = some "Norte" ∧ macro_map "2" = some "Nordeste" ∧
    macro_map "3" = some "Sudeste" ∧ macro_map "4" = some "Sul" ∧
    macro_map "5" = some "Centro-Oeste" := by
  refine ⟨?_, by decide, by decide, by decide, by decide, by decide, by decide⟩
  match hdata : rmId.data with
  | [] => rw [hdata] at h; simp at h
  | c :: cs => exact ⟨c, cs, rfl, by simp [macroCode, hdata]⟩

/-- Witness for C6 at the identifier of São Paulo's metropolitan region. -/
theorem c6_region_code_extraction_witness :
    (∃ c cs, "3550308".data = c :: cs ∧
      macroCode "3550308" = .ok (String.singleton c)) ∧
    macroCode "3550308" = .ok "3" ∧ macro_map "3" = some "Sudeste" := by
  have h := c6_region_code_extraction "3550308" (by decide)
  exact ⟨h.1, h.2.1, h.2.2.2.2.1⟩

/-- Claim C7: the merge is an inner join on (macro-region code, quarter key):
a joined row exists for a key pair exactly when both series carry that pair,
pairs present in only one series are dropped, and fully disjoint quarter sets
give the empty join and the error-path render. -/
theorem c7_inner_join_semantics (pnad : List PnadRecord) (ipcaTrim : List AggRecord) :
    (∀ r q : String,
      (∃ j ∈ mergeFinal pnad ipcaTrim, j.macroId = r ∧ j.trimCod = q) ↔
        ((∃ p ∈ pnad, p.macroId = r ∧ p.trimCod = q) ∧
         (∃ a ∈ ipcaTrim, a.macroId = r ∧ a.trimCod = q))) ∧
    ((∀ p ∈ pnad, ∀ a ∈ ipcaTrim, p.trimCod ≠ a.trimCod) →
      mergeFinal pnad ipcaTrim = [] ∧
      appLayout (finalizeCols (mergeFinal pnad ipcaTrim)) = some .errorMessage) := by
  constructor
  · intro r q
    constructor
    · rintro ⟨j, hj, hr, hq⟩
      obtain ⟨p, hp, a, ha, h1, h2, rfl⟩ := mem_mergeFinal.1 hj
      exact ⟨⟨p, hp, hr, hq⟩, a, ha, h1.trans hr, h2.trans hq⟩
    · rintro ⟨⟨p, hp, hpr, hpq⟩, a, ha, har, haq⟩
      exact ⟨⟨p.trimCod, p.macroId, p.desemprego, a.ipca, a.ipcaAcumTrim⟩,
        mem_mergeFinal.2 ⟨p, hp, a, ha, har.trans hpr.symm, haq.trans hpq.symm, rfl⟩,
        hpr, hpq⟩
  · intro hdisj
    have hnil : mergeFinal pnad ipcaTrim = [] := by
      rw [mergeFinal, List.flatMap_eq_nil_iff]
      intro p hp
      rw [List.map_eq_nil_iff, List.filter_eq_nil_iff]
      intro a ha
      rw [Bool.and_eq_true, beq_iff_eq, beq_iff_eq]
      rintro ⟨h1, h2⟩
      exact hdisj p hp a ha h2.symm
    refine ⟨hnil, ?_⟩
    rw [hnil]
    rfl

/-- Claim C8: permuting the record order of either input of the join leaves
the joined result unchanged as a set: every joined row of the one is a joined
row of the other. -/
theorem c8_join_order_invariant (p1 p2 : List PnadRecord) (i1 i2 : List AggRecord)
    (hp : p1.Perm p2) (hi : i1.Perm i2) (j : JoinedRecord) :
    j ∈ mergeFinal p1 i1 ↔ j ∈ mergeFinal p2 i2 := by
  rw [mem_mergeFinal, mem_mergeFinal]
  constructor
  · rintro ⟨p, hp1, a, ha1, h⟩
    exact ⟨p, hp.mem_iff.1 hp1, a, hi.mem_iff.1 ha1, h⟩
  · rintro ⟨p, hp2, a, ha2, h⟩
    exact ⟨p, hp.mem_iff.2 hp2, a, hi.mem_iff.2 ha2, h⟩

/-- Witness for C8 at a concrete transposition of the left input. -/
theorem c8_join_order_invariant_witness :
    ((⟨"202001", "3", 7, 1, 3⟩ : JoinedRecord) ∈
        mergeFinal [⟨"202001", "3", 7⟩, ⟨"202002", "3", 8⟩] [⟨"3", "202001", 1, 3⟩] ↔
      (⟨"202001", "3", 7, 1, 3⟩ : JoinedRecord) ∈
        mergeFinal [⟨"202002", "3", 8⟩, ⟨"202001", "3", 7⟩] [⟨"3", "202001", 1, 3⟩]) :=
  c8_join_order_invariant _ _ _ _ (List.Perm.swap _ _ _) (List.Perm.refl _) _

/-- Claim C9: the aggregation emits exactly one record per distinct
(macro-region, quarter) pair present in its input, and none for absent
pairs. -/
theorem c9_one_row_per_group (rs : List TrimRecord) :
    ((ipcaTrimAgg rs).map (fun a => (a.macroId, a.trimCod))).Nodup ∧
    (∀ k : String × String,
      (∃ a ∈ ipcaTrimAgg rs, (a.macroId, a.trimCod) = k) ↔
        (∃ r ∈ rs, (r.macroId, r.trimCod) = k)) := by
  have hkeys : (ipcaTrimAgg rs).map (fun a => (a.macroId, a.trimCod))
      = (rs.map (fun r => (r.macroId, r.trimCod))).dedup := by
    rw [ipcaTrimAgg, List.map_map]
    exact List.map_id _
  constructor
  · rw [hkeys]
    exact List.nodup_dedup _
  · intro k
    calc (∃ a ∈ ipcaTrimAgg rs, (a.macroId, a.trimCod) = k)
        ↔ k ∈ (ipcaTrimAgg rs).map (fun a => (a.macroId, a.trimCod)) :=
          List.mem_map.symm
      _ ↔ k ∈ (rs.map (fun r => (r.macroId, r.trimCod))).dedup := by rw [hkeys]
      _ ↔ k ∈ rs.map (fun r => (r.macroId, r.trimCod)) := List.mem_dedup
      _ ↔ (∃ r ∈ rs, (r.macroId, r.trimCod) = k) := List.mem_map

/-- Claim C10: the pipeline is a pure function of the two fetched responses —
two runs over identical response structures produce identical datasets,
record for record. -/
theorem c10_deterministic (respIpca respPnad respIpca2 respPnad2 : Option Payload)
    (h1 : respIpca = respIpca2) (h2 : respPnad = respPnad2) :
    fetch_ibge_data respIpca respPnad = fetch_ibge_data respIpca2 respPnad2 := by
  rw [h1, h2]

/-- Witness for C10 at a pair of concrete runs. -/
theorem c10_deterministic_witness :
    fetch_ibge_data none none = fetch_ibge_data none none :=
  c10_deterministic none none none none rfl rfl

end App
